import Mathlib

/-!
Verification of the water-chemistry scoring and recommendation engine of the
VegasPoolCoaches backend.  Chemistry values are modelled as exact rationals
and timestamps as integer milliseconds since the epoch.  Each definition
transcribes the JavaScript function named in its doc comment.
-/

namespace VegasPool

/-- A water chemistry reading (the `waterChemistrySchema` of
`src/models/Pool.js`).  Only numeric fields relevant to evaluation are kept;
`testedAt` is a timestamp in milliseconds. -/
structure WaterChemistryReading where
  pH : ℚ
  chlorine : ℚ
  alkalinity : ℚ
  hardness : ℚ
  cyanuricAcid : ℚ
  temperature : ℚ
  testedAt : ℤ
deriving Repr, DecidableEq

/-- `7 * 24 * 60 * 60 * 1000` milliseconds, the freshness window used by
`needsAttention` in `src/models/Pool.js` line 162. -/
def sevenDaysMs : ℤ := 7 * 24 * 60 * 60 * 1000

/-- `poolSchema.methods.needsAttention` (`src/models/Pool.js` lines 152-165).
`latest` is the latest water-chemistry reading (`none` when the pool has no
readings); `now` is the current time in milliseconds. -/
def needsAttention (latest : Option WaterChemistryReading) (now : ℤ) : Bool :=
  match latest with
  | none => true
  | some latest =>
    let phOk := decide (latest.pH ≥ 7.2) && decide (latest.pH ≤ 7.6)
    let chlorineOk := decide (latest.chlorine ≥ 1.0) && decide (latest.chlorine ≤ 3.0)
    let alkalinityOk := decide (latest.alkalinity ≥ 80) && decide (latest.alkalinity ≤ 120)
    let recentReading := decide (now - latest.testedAt ≤ sevenDaysMs)
    !phOk || !chlorineOk || !alkalinityOk || !recentReading

/-- Classification of a value against a band. -/
inductive Verdict where
  | below
  | within
  | above
deriving Repr, DecidableEq

/-- Band classification as implemented by the threshold comparisons in
`needsAttention` and `getRecommendations` (`src/models/Pool.js`): strictly
below the lower bound is `below`, strictly above the upper bound is `above`,
otherwise `within` (boundaries inclusive). -/
def bandVerdict (lo hi v : ℚ) : Verdict :=
  if v < lo then .below
  else if v > hi then .above
  else .within

/-- The per-parameter verdicts and staleness derived from one reading. -/
structure EvaluationResult where
  phVerdict : Verdict
  chlorineVerdict : Verdict
  alkalinityVerdict : Verdict
  staleness : Bool
deriving Repr, DecidableEq

/-- Evaluation of a single reading against the fixed bands of
`src/models/Pool.js` (pH [7.2, 7.6], chlorine [1.0, 3.0], alkalinity
[80, 120]) together with the 7-day staleness check of line 162. -/
def evaluate (r : WaterChemistryReading) (now : ℤ) : EvaluationResult :=
  { phVerdict := bandVerdict 7.2 7.6 r.pH
    chlorineVerdict := bandVerdict 1.0 3.0 r.chlorine
    alkalinityVerdict := bandVerdict 80 120 r.alkalinity
    staleness := decide (now - r.testedAt > sevenDaysMs) }

theorem bandVerdict_within_iff (lo hi v : ℚ) :
    bandVerdict lo hi v = .within ↔ lo ≤ v ∧ v ≤ hi := by
  unfold bandVerdict
  split_ifs with h1 h2
  · simp only [reduceCtorEq, false_iff, not_and]
    intro hlo
    exact absurd h1 (not_lt.mpr hlo)
  · simp only [reduceCtorEq, false_iff, not_and]
    intro _
    exact not_le.mpr h2
  · simp only [true_iff]
    exact ⟨not_lt.mp h1, not_lt.mp h2⟩

end VegasPool

open VegasPool

/-- Claim C1: for every reading, the per-parameter verdict is `within` iff the
value lies inside its band with inclusive boundaries (pH in [7.2, 7.6],
chlorine in [1.0, 3.0], alkalinity in [80, 120]); staleness holds iff `now`
minus the reading's timestamp strictly exceeds 7 days; `needsAttention` is
true iff staleness holds or some verdict differs from `within`; and when no
reading exists at all, `needsAttention` is true. -/
theorem chemistry_evaluation_spec :
    (∀ (r : WaterChemistryReading) (now : ℤ),
      ((evaluate r now).phVerdict = .within ↔ 7.2 ≤ r.pH ∧ r.pH ≤ 7.6) ∧
      ((evaluate r now).chlorineVerdict = .within ↔ 1.0 ≤ r.chlorine ∧ r.chlorine ≤ 3.0) ∧
      ((evaluate r now).alkalinityVerdict = .within ↔ 80 ≤ r.alkalinity ∧ r.alkalinity ≤ 120) ∧
      ((evaluate r now).staleness = true ↔ now - r.testedAt > sevenDaysMs) ∧
      (needsAttention (some r) now = true ↔
        (evaluate r now).staleness = true ∨
        (evaluate r now).phVerdict ≠ .within ∨
        (evaluate r now).chlorineVerdict ≠ .within ∨
        (evaluate r now).alkalinityVerdict ≠ .within)) ∧
    (∀ now : ℤ, needsAttention none now = true) := by
  constructor
  · intro r now
    refine ⟨bandVerdict_within_iff _ _ _, bandVerdict_within_iff _ _ _,
      bandVerdict_within_iff _ _ _, by simp [evaluate], ?_⟩
    simp only [needsAttention, evaluate, Bool.or_eq_true, Bool.not_eq_true',
      Bool.and_eq_false_iff, decide_eq_false_iff_not, not_le,
      decide_eq_true_eq, ne_eq, bandVerdict_within_iff, not_and_or, not_lt]
    tauto
  · intro now
    rfl

namespace VegasPool

/-- Recommendation kind (the `type` field of a recommendation object in
`src/models/Pool.js`). -/
inductive RecType where
  | chemical
  | safety
  | urgent
  | maintenance
deriving Repr, DecidableEq

/-- Recommendation priority values used in `src/models/Pool.js`. -/
inductive RecPriority where
  | low
  | medium
  | high
  | urgent
deriving Repr, DecidableEq

/-- A recommendation object as pushed by `getRecommendations`
(`src/models/Pool.js`).  The no-reading recommendation carries no
`priority` field in the source, hence the `Option`. -/
structure Recommendation where
  rtype : RecType
  message : String
  priority : Option RecPriority
deriving Repr, DecidableEq

/-- `poolSchema.methods.getRecommendations` (`src/models/Pool.js` lines
168-226).  Array pushes are transcribed as list appends in source order
(pH, then chlorine, then alkalinity). -/
def getRecommendations (latest : Option WaterChemistryReading) : List Recommendation :=
  match latest with
  | none =>
    [{ rtype := .urgent, message := "Water chemistry test needed immediately",
       priority := none }]
  | some latest =>
    let recommendations : List Recommendation := []
    let recommendations := recommendations ++
      (if latest.pH < 7.2 then
        [{ rtype := .chemical,
           message := "pH is too low. Add sodium carbonate (soda ash) to raise pH.",
           priority := some .high }]
      else if latest.pH > 7.6 then
        [{ rtype := .chemical,
           message := "pH is too high. Add muriatic acid or sodium bisulfate to lower pH.",
           priority := some .high }]
      else [])
    let recommendations := recommendations ++
      (if latest.chlorine < 1.0 then
        [{ rtype := .chemical,
           message := "Chlorine level is too low. Add chlorine shock or liquid chlorine.",
           priority := some .urgent }]
      else if latest.chlorine > 3.0 then
        [{ rtype := .safety,
           message := "Chlorine level is too high. Allow levels to decrease before swimming.",
           priority := some .medium }]
      else [])
    let recommendations := recommendations ++
      (if latest.alkalinity < 80 then
        [{ rtype := .chemical,
           message := "Total alkalinity is low. Add sodium bicarbonate to increase alkalinity.",
           priority := some .medium }]
      else if latest.alkalinity > 120 then
        [{ rtype := .chemical,
           message := "Total alkalinity is high. Add muriatic acid to decrease alkalinity.",
           priority := some .medium }]
      else [])
    recommendations

/-- The reading `{pH: 7.8, chlorine: 0.5, alkalinity: 100}` of the spec's
worked example; fields not involved in evaluation are arbitrary. -/
def exampleReading : WaterChemistryReading :=
  { pH := 7.8, chlorine := 0.5, alkalinity := 100, hardness := 200,
    cyanuricAcid := 0, temperature := 80, testedAt := 0 }

/-- A reading violating the declared invariant `pH ∈ [0, 14]`. -/
def invalidPHReading : WaterChemistryReading :=
  { pH := 20, chlorine := 2, alkalinity := 100, hardness := 200,
    cyanuricAcid := 0, temperature := 80, testedAt := 0 }

end VegasPool

/-- Claim C5: for every present reading, each out-of-band parameter appends
exactly one recommendation with the fixed kind and priority from the table
(pH low/high → chemical/high; chlorine low → chemical/urgent; chlorine high
→ safety/medium; alkalinity low/high → chemical/medium), appended in check
order pH, chlorine, alkalinity; the reading {pH: 7.8, chlorine: 0.5,
alkalinity: 100} yields exactly two recommendations, lower-pH (high) then
add-chlorine (urgent), in that order. -/
theorem recommendations_table_spec :
    (∀ r : WaterChemistryReading,
      getRecommendations (some r) =
        (if r.pH < 7.2 then
          [{ rtype := .chemical,
             message := "pH is too low. Add sodium carbonate (soda ash) to raise pH.",
             priority := some .high }]
         else if r.pH > 7.6 then
          [{ rtype := .chemical,
             message := "pH is too high. Add muriatic acid or sodium bisulfate to lower pH.",
             priority := some .high }]
         else []) ++
        (if r.chlorine < 1.0 then
          [{ rtype := .chemical,
             message := "Chlorine level is too low. Add chlorine shock or liquid chlorine.",
             priority := some .urgent }]
         else if r.chlorine > 3.0 then
          [{ rtype := .safety,
             message := "Chlorine level is too high. Allow levels to decrease before swimming.",
             priority := some .medium }]
         else []) ++
        (if r.alkalinity < 80 then
          [{ rtype := .chemical,
             message := "Total alkalinity is low. Add sodium bicarbonate to increase alkalinity.",
             priority := some .medium }]
         else if r.alkalinity > 120 then
          [{ rtype := .chemical,
             message := "Total alkalinity is high. Add muriatic acid to decrease alkalinity.",
             priority := some .medium }]
         else [])) ∧
    getRecommendations (some exampleReading) =
      [{ rtype := .chemical,
         message := "pH is too high. Add muriatic acid or sodium bisulfate to lower pH.",
         priority := some .high },
       { rtype := .chemical,
         message := "Chlorine level is too low. Add chlorine shock or liquid chlorine.",
         priority := some .urgent }] := by
  constructor
  · intro r
    simp only [getRecommendations, List.nil_append, List.append_assoc]
  · norm_num [getRecommendations, exampleReading]

/-- Claim C8 counterexample: at the invariant-violating reading with pH = 20
the core does not fail — it silently produces a band verdict (`above`) and
the lower-pH recommendation, contradicting the claim that it fails with
`InvalidInputError`. -/
theorem invalid_reading_counterexample :
    (evaluate invalidPHReading 0).phVerdict = .above ∧
    needsAttention (some invalidPHReading) 0 = true ∧
    getRecommendations (some invalidPHReading) =
      [{ rtype := .chemical,
         message := "pH is too high. Add muriatic acid or sodium bisulfate to lower pH.",
         priority := some .high }] := by
  refine ⟨?_, ?_, ?_⟩
  · norm_num [evaluate, bandVerdict, invalidPHReading]
  · norm_num [needsAttention, invalidPHReading, sevenDaysMs]
  · norm_num [getRecommendations, invalidPHReading]

/-- Claim C8 amended: the evaluation functions perform no invariant
validation and never fail; any reading with pH above the declared maximum 14
is silently classified `above` and receives the lower-pH recommendation.
The `pH ∈ [0, 14]` invariant is enforced only by the persistence schema, not
by the evaluation core. -/
theorem invalid_reading_amended (r : WaterChemistryReading) (h : r.pH > 14) :
    (evaluate r 0).phVerdict = .above ∧
    ({ rtype := .chemical,
       message := "pH is too high. Add muriatic acid or sodium bisulfate to lower pH.",
       priority := some .high } : Recommendation) ∈ getRecommendations (some r) := by
  have h1 : ¬ r.pH < 7.2 := by
    intro hc
    have : (7.2 : ℚ) < 14 := by norm_num
    linarith
  have h2 : r.pH > 7.6 := by
    have : (7.6 : ℚ) < 14 := by norm_num
    linarith
  constructor
  · simp [evaluate, bandVerdict, h1, h2]
  · simp only [getRecommendations, List.nil_append, if_neg h1, if_pos h2,
      List.mem_append, List.mem_singleton]
    tauto

/-- Witness for `invalid_reading_amended` at the concrete reading with
pH = 20. -/
theorem invalid_reading_amended_witness :
    (evaluate invalidPHReading 0).phVerdict = .above ∧
    ({ rtype := .chemical,
       message := "pH is too high. Add muriatic acid or sodium bisulfate to lower pH.",
       priority := some .high } : Recommendation) ∈ getRecommendations (some invalidPHReading) :=
  invalid_reading_amended invalidPHReading (by norm_num [invalidPHReading])

namespace VegasPool

/-- Whether `pat` occurs at the start of `s` (character lists). -/
def charsStartWith : List Char → List Char → Bool
  | [], _ => true
  | _ :: _, [] => false
  | a :: as, b :: bs => a == b && charsStartWith as bs

/-- Whether `pat` occurs contiguously anywhere inside `s` (character lists). -/
def charsHaveSub (pat : List Char) : List Char → Bool
  | [] => charsStartWith pat []
  | b :: bs => charsStartWith pat (b :: bs) || charsHaveSub pat bs

/-- JavaScript `String.prototype.includes`: `pat` occurs in `s`. -/
def strIncludes (s pat : String) : Bool :=
  charsHaveSub pat.toList s.toList

/-- JavaScript `String.prototype.toLowerCase`, character by character. -/
def strToLower (s : String) : String :=
  ⟨s.data.map Char.toLower⟩

/-- The numeric fields of the `waterChemistry` request body read by
`generateRuleBasedAnalysis` (`src/unnamed/part_001`); the Joi schema marks
the whole object optional. -/
structure ChemistryValues where
  pH : ℚ
  chlorine : ℚ
  alkalinity : ℚ
deriving Repr, DecidableEq

/-- The symptom-driven pushes of `generateRuleBasedAnalysis`
(`src/unnamed/part_001` lines 440-455): for each symptom in supplied order,
three independent case-insensitive substring checks (`algae`, `cloudy`,
`smell`), each appending its recommendation when it matches. -/
def symptomRecommendations (symptoms : List String) : List String :=
  (symptoms.map (fun symptom =>
    (if strIncludes (strToLower symptom) "algae" then
      ["Shock treatment with chlorine, brush walls, and run filtration 24/7 until clear"]
     else []) ++
    (if strIncludes (strToLower symptom) "cloudy" then
      ["Check and clean filter, test water chemistry, consider clarifier treatment"]
     else []) ++
    (if strIncludes (strToLower symptom) "smell" then
      ["Test chlorine levels, shock if needed, check pH balance"]
     else []))).flatten

/-- The `recommendations` array built by `generateRuleBasedAnalysis`
(`src/unnamed/part_001` lines 399-455): chemistry-derived pushes when a
reading is present (skipped entirely when `waterChemistry` is absent),
followed by the symptom-derived pushes.  The function's `issues` array and
the analysis text it returns are not modelled; the claims under study
concern only which recommendations are emitted. -/
def generateRuleBasedAnalysisRecs (waterChemistry : Option ChemistryValues)
    (symptoms : List String) : List String :=
  let recommendations : List String := []
  let recommendations := recommendations ++
    (match waterChemistry with
     | none => []
     | some wc =>
       (if wc.pH < 7.2 then
         ["Add sodium carbonate (soda ash) to raise pH to 7.2-7.6 range"]
        else if wc.pH > 7.6 then
         ["Add muriatic acid or sodium bisulfate to lower pH to 7.2-7.6 range"]
        else []) ++
       (if wc.chlorine < 1.0 then
         ["URGENT: Add chlorine shock or liquid chlorine to reach 1.0-3.0 ppm"]
        else if wc.chlorine > 3.0 then
         ["Allow chlorine to naturally decrease before swimming, or add neutralizer"]
        else []) ++
       (if wc.alkalinity < 80 then
         ["Add sodium bicarbonate to increase alkalinity to 80-120 ppm"]
        else if wc.alkalinity > 120 then
         ["Add muriatic acid carefully to decrease alkalinity"]
        else []))
  let recommendations := recommendations ++ symptomRecommendations symptoms
  recommendations

end VegasPool

/-- Claim C3 counterexample: the symptom-accepting analysis function, given
an absent reading and the symptom list `["algae"]`, emits the symptom-derived
shock recommendation and never emits the urgent "Water chemistry test needed
immediately" message — symptom checks do run when no reading exists,
contradicting the claimed short-circuit. -/
theorem no_reading_symptom_counterexample :
    generateRuleBasedAnalysisRecs none ["algae"] =
      ["Shock treatment with chlorine, brush walls, and run filtration 24/7 until clear"] ∧
    "Water chemistry test needed immediately" ∉
      generateRuleBasedAnalysisRecs none ["algae"] := by
  constructor
  · rfl
  · decide

/-- Claim C3 amended: `Pool.getRecommendations`, which accepts no symptom
list, returns exactly one urgent recommendation "Water chemistry test needed
immediately" when no reading exists; the symptom-accepting
`generateRuleBasedAnalysis` has no such short-circuit — with an absent
reading its recommendation list is exactly the symptom-derived list, so
symptom checks still run there. -/
theorem no_reading_recommendations_amended :
    getRecommendations none =
      [{ rtype := .urgent, message := "Water chemistry test needed immediately",
         priority := none }] ∧
    ∀ symptoms : List String,
      generateRuleBasedAnalysisRecs none symptoms = symptomRecommendations symptoms := by
  exact ⟨rfl, fun _ => rfl⟩

namespace VegasPool

/-- Task status values of `maintenanceLogSchema` (`src/models/MaintenanceLog.js`). -/
inductive TaskStatus where
  | pending
  | in_progress
  | completed
  | skipped
  | failed
deriving Repr, DecidableEq

/-- Issue severity values of `maintenanceLogSchema` (`src/models/MaintenanceLog.js`). -/
inductive IssueSeverity where
  | minor
  | moderate
  | major
  | critical
deriving Repr, DecidableEq

/-- The fields of a maintenance log read by `calculateQualityScore`:
task statuses, issue severities, and the optional `customerFeedback.rating`
(1 to 5 in the schema). -/
structure MaintenanceEvent where
  tasks : List TaskStatus
  issues : List IssueSeverity
  customerRating : Option ℤ
deriving Repr, DecidableEq

/-- `this.tasks.filter(task => task.status === 'failed' || task.status ===
'skipped').length` of `calculateQualityScore`. -/
def incompleteTasksCount (e : MaintenanceEvent) : ℕ :=
  (e.tasks.filter (fun t => t == .failed || t == .skipped)).length

/-- `this.issues.filter(issue => issue.severity === 'critical').length`. -/
def criticalIssuesCount (e : MaintenanceEvent) : ℕ :=
  (e.issues.filter (fun i => i == .critical)).length

/-- `this.issues.filter(issue => issue.severity === 'major').length`. -/
def majorIssuesCount (e : MaintenanceEvent) : ℕ :=
  (e.issues.filter (fun i => i == .major)).length

/-- `maintenanceLogSchema.methods.calculateQualityScore`
(`src/models/MaintenanceLog.js` lines 194-215).  The JavaScript truthiness
guard `this.customerFeedback && this.customerFeedback.rating` is modelled as
presence of the rating plus `rating ≠ 0`. -/
def calculateQualityScore (e : MaintenanceEvent) : ℤ :=
  let score : ℤ := 100
  let score := score - (incompleteTasksCount e : ℤ) * 10
  let score := score - ((criticalIssuesCount e : ℤ) * 20 + (majorIssuesCount e : ℤ) * 10)
  let score :=
    match e.customerRating with
    | some rating => if rating ≠ 0 then score + (rating - 3) * 5 else score
    | none => score
  max 0 (min 100 score)

/-- The rating adjustment applied by `calculateQualityScore`. -/
def ratingAdjustment : Option ℤ → ℤ
  | some rating => if rating ≠ 0 then (rating - 3) * 5 else 0
  | none => 0

theorem calculateQualityScore_eq (e : MaintenanceEvent) :
    calculateQualityScore e =
      max 0 (min 100 (100 - (incompleteTasksCount e : ℤ) * 10
        - ((criticalIssuesCount e : ℤ) * 20 + (majorIssuesCount e : ℤ) * 10)
        + ratingAdjustment e.customerRating)) := by
  unfold calculateQualityScore ratingAdjustment
  cases e.customerRating with
  | none => norm_num
  | some r =>
    by_cases h : r = 0 <;> simp [h]

/-- The maintenance event of the spec's worked example: tasks
[completed, failed, completed], one critical issue, customer rating 5. -/
def exampleMaintenanceEvent : MaintenanceEvent :=
  { tasks := [.completed, .failed, .completed], issues := [.critical],
    customerRating := some 5 }

end VegasPool

/-- Claim C2: the quality score equals 100 minus 10 per failed or skipped
task, minus 20 per critical and 10 per major issue (minor and moderate have
no effect), plus `(rating - 3) * 5` when a customer rating is present, with
the clamp to [0, 100] applied exactly once as the final step; the event with
tasks [completed, failed, completed], one critical issue and rating 5
scores 80. -/
theorem quality_score_formula :
    (∀ e : MaintenanceEvent, (∀ r ∈ e.customerRating, 1 ≤ r ∧ r ≤ 5) →
      calculateQualityScore e =
        max 0 (min 100 (100 - 10 * (incompleteTasksCount e : ℤ)
          - 20 * (criticalIssuesCount e : ℤ) - 10 * (majorIssuesCount e : ℤ)
          + (match e.customerRating with
             | some rating => (rating - 3) * 5
             | none => 0)))) ∧
    calculateQualityScore exampleMaintenanceEvent = 80 := by
  constructor
  · intro e hr
    rw [calculateQualityScore_eq]
    cases hc : e.customerRating with
    | none => simp [ratingAdjustment]; ring_nf
    | some r =>
      have h5 := hr r (by simp [hc])
      have hne : r ≠ 0 := by omega
      simp only [ratingAdjustment, if_pos hne]
      ring_nf
  · decide

/-- Witness for `quality_score_formula` at the worked example (rating 5
satisfies the 1..5 hypothesis). -/
theorem quality_score_formula_witness :
    (∀ r ∈ exampleMaintenanceEvent.customerRating, 1 ≤ r ∧ r ≤ 5) ∧
    calculateQualityScore exampleMaintenanceEvent =
      max 0 (min 100 (100 - 10 * (incompleteTasksCount exampleMaintenanceEvent : ℤ)
        - 20 * (criticalIssuesCount exampleMaintenanceEvent : ℤ)
        - 10 * (majorIssuesCount exampleMaintenanceEvent : ℤ)
        + ((5 : ℤ) - 3) * 5)) := by
  refine ⟨by decide, ?_⟩
  have h := quality_score_formula.1 exampleMaintenanceEvent (by decide)
  exact h

/-- A pathological maintenance event: the example's tasks and rating, but 50
critical issues. -/
def pathologicalMaintenanceEvent : MaintenanceEvent :=
  { tasks := [.completed, .failed, .completed],
    issues := List.replicate 50 .critical, customerRating := some 5 }

/-- Claim C7: holding the other inputs fixed, the quality score is
monotonically non-increasing in the number of failed/skipped tasks and in
the counts of critical and major issues, and the returned score always lies
in [0, 100]. -/
theorem quality_score_monotone_bounded :
    (∀ e₁ e₂ : MaintenanceEvent,
      incompleteTasksCount e₁ ≤ incompleteTasksCount e₂ →
      criticalIssuesCount e₁ ≤ criticalIssuesCount e₂ →
      majorIssuesCount e₁ ≤ majorIssuesCount e₂ →
      e₁.customerRating = e₂.customerRating →
      calculateQualityScore e₂ ≤ calculateQualityScore e₁) ∧
    (∀ e : MaintenanceEvent,
      0 ≤ calculateQualityScore e ∧ calculateQualityScore e ≤ 100) := by
  constructor
  · intro e₁ e₂ ht hc hm hr
    rw [calculateQualityScore_eq, calculateQualityScore_eq, hr]
    omega
  · intro e
    rw [calculateQualityScore_eq]
    omega

/-- Witness for `quality_score_monotone_bounded`: going from the worked
example to the pathological event with 50 critical issues does not raise the
score, and both scores lie in [0, 100] (the pathological one is clamped to
0). -/
theorem quality_score_monotone_bounded_witness :
    calculateQualityScore pathologicalMaintenanceEvent ≤
      calculateQualityScore exampleMaintenanceEvent ∧
    0 ≤ calculateQualityScore pathologicalMaintenanceEvent ∧
    calculateQualityScore pathologicalMaintenanceEvent ≤ 100 ∧
    calculateQualityScore pathologicalMaintenanceEvent = 0 := by
  refine ⟨?_, ?_, ?_, by decide⟩
  · exact quality_score_monotone_bounded.1 exampleMaintenanceEvent
      pathologicalMaintenanceEvent (by decide) (by decide) (by decide) rfl
  · exact (quality_score_monotone_bounded.2 pathologicalMaintenanceEvent).1
  · exact (quality_score_monotone_bounded.2 pathologicalMaintenanceEvent).2

namespace VegasPool

/-- The water-sample test results read by `calculateChemistryScore`
(`src/unnamed/part_000`). -/
structure TestResults where
  pH : ℚ
  chlorine : ℚ
  alkalinity : ℚ
deriving Repr, DecidableEq

/-- `calculateChemistryScore` (`src/unnamed/part_000` lines 764-779):
absent test results give 50; otherwise 100 minus 20 for pH out of
[7.2, 7.6], 20 for chlorine out of [1.0, 3.0], 15 for alkalinity out of
[80, 120], floored at 0. -/
def calculateChemistryScore (testResults : Option TestResults) : ℚ :=
  match testResults with
  | none => 50
  | some t =>
    let score : ℚ := 100
    let score := if t.pH < 7.2 ∨ t.pH > 7.6 then score - 20 else score
    let score := if t.chlorine < 1.0 ∨ t.chlorine > 3.0 then score - 20 else score
    let score := if t.alkalinity < 80 ∨ t.alkalinity > 120 then score - 15 else score
    max 0 score

/-- `calculateClarityScore` (`src/unnamed/part_000` lines 781-791): the
fixed lookup table with default 70 (`clarityScores[waterClarity] || 70`,
covering an unknown key and a missing value alike). -/
def calculateClarityScore (waterClarity : Option String) : ℚ :=
  match waterClarity with
  | some "crystal_clear" => 100
  | some "slightly_cloudy" => 80
  | some "cloudy" => 60
  | some "very_cloudy" => 40
  | some "murky" => 20
  | _ => 70

/-- `calculateEquipmentScore` (`src/unnamed/part_000` lines 793-800): 70
when equipment entries are absent or empty, else the fraction of entries
with status `working` times 100.  Entries are modelled by their `status`
strings, the only field the source reads. -/
def calculateEquipmentScore (equipmentStatus : Option (List String)) : ℚ :=
  match equipmentStatus with
  | none => 70
  | some equipmentStatus =>
    if equipmentStatus.length = 0 then 70
    else
      ((equipmentStatus.filter (fun st => st == "working")).length : ℚ)
        / (equipmentStatus.length : ℚ) * 100

/-- `calculateOverallGrade` (`src/unnamed/part_000` lines 802-813): the
unweighted mean of the three sub-scores mapped through the cutoff chain,
first match wins. -/
def calculateOverallGrade (chemistryScore clarityScore equipmentScore : ℚ) : String :=
  let avgScore := (chemistryScore + clarityScore + equipmentScore) / 3
  if avgScore ≥ 97 then "A+"
  else if avgScore ≥ 93 then "A"
  else if avgScore ≥ 87 then "B+"
  else if avgScore ≥ 83 then "B"
  else if avgScore ≥ 77 then "C+"
  else if avgScore ≥ 73 then "C"
  else if avgScore ≥ 67 then "D"
  else "F"

/-- The `waterSample` field of an assessment, as read by
`performWeeklyAIAnalysis` via `waterSample?.testResults`. -/
structure WaterSample where
  testResults : Option TestResults
deriving Repr, DecidableEq

/-- The `visualInspection` fields read by `performWeeklyAIAnalysis`. -/
structure VisualInspection where
  waterClarity : Option String
  equipmentStatus : Option (List String)
deriving Repr, DecidableEq

/-- The assessment data passed to `performWeeklyAIAnalysis`. -/
structure AssessmentData where
  waterSample : Option WaterSample
  visualInspection : Option VisualInspection
deriving Repr, DecidableEq

/-- A recommendation object pushed by `performWeeklyAIAnalysis`. -/
structure WeeklyRecommendation where
  priority : String
  action : String
  reason : String
  estimatedCost : ℚ
  timeframe : String
  difficulty : String
deriving Repr, DecidableEq

/-- An alert object pushed by `performWeeklyAIAnalysis`. -/
structure WeeklyAlert where
  alertType : String
  severity : String
  message : String
  actionRequired : Bool
deriving Repr, DecidableEq

/-- The result object of `performWeeklyAIAnalysis` (its constant `trends: []`
field is omitted). -/
structure WeeklyAnalysis where
  overallGrade : String
  chemistryScore : ℚ
  clarityScore : ℚ
  equipmentScore : ℚ
  recommendations : List WeeklyRecommendation
  alerts : List WeeklyAlert
deriving Repr, DecidableEq

/-- `performWeeklyAIAnalysis` (`src/unnamed/part_000` lines 721-762).  The
optional chaining `waterSample?.testResults` and
`visualInspection?.waterClarity` / `?.equipmentStatus` is `Option.bind`. -/
def performWeeklyAIAnalysis (assessmentData : AssessmentData) : WeeklyAnalysis :=
  let chemistryScore := calculateChemistryScore
    (assessmentData.waterSample.bind (fun ws => ws.testResults))
  let clarityScore := calculateClarityScore
    (assessmentData.visualInspection.bind (fun vi => vi.waterClarity))
  let equipmentScore := calculateEquipmentScore
    (assessmentData.visualInspection.bind (fun vi => vi.equipmentStatus))
  let overallGrade := calculateOverallGrade chemistryScore clarityScore equipmentScore
  let recommendations :=
    if chemistryScore < 70 then
      [{ priority := "high", action := "Adjust water chemistry",
         reason := "Chemical levels are outside optimal range",
         estimatedCost := 50, timeframe := "24 hours",
         difficulty := "easy" : WeeklyRecommendation }]
    else []
  let alerts :=
    if chemistryScore < 70 then
      [{ alertType := "chemistry", severity := "warning",
         message := "Water chemistry requires immediate attention",
         actionRequired := true : WeeklyAlert }]
    else []
  { overallGrade := overallGrade, chemistryScore := chemistryScore,
    clarityScore := clarityScore, equipmentScore := equipmentScore,
    recommendations := recommendations, alerts := alerts }

end VegasPool

/-- Claim C4 counterexample: sub-scores (40, 75, 80) average to 65, and
65 < 67, so the code returns grade "F", not the "D" the claim asserts. -/
theorem overall_grade_example_counterexample :
    calculateOverallGrade 40 75 80 = "F" ∧ calculateOverallGrade 40 75 80 ≠ "D" := by
  constructor
  · norm_num [calculateOverallGrade]
  · norm_num [calculateOverallGrade]
    decide

/-- Claim C4 amended: the sub-scores and cutoffs behave exactly as claimed
(clarity lookup with default 70; equipment score `100 * working / total`
with 70 for no entries; chemistry score 100 minus 20/20/15 deductions
floored at 0; overall grade = unweighted mean mapped first-match-wins
through ≥97→A+, ≥93→A, ≥87→B+, ≥83→B, ≥77→C+, ≥73→C, ≥67→D, else F;
grade(100,100,100) = "A+" and grade(0,0,0) = "F"), but the sub-scores
(40, 75, 80) give overall 65 and grade "F" (65 is below the 67 cutoff for
D), not "D". -/
theorem weekly_grade_spec :
    (calculateClarityScore (some "crystal_clear") = 100 ∧
     calculateClarityScore (some "slightly_cloudy") = 80 ∧
     calculateClarityScore (some "cloudy") = 60 ∧
     calculateClarityScore (some "very_cloudy") = 40 ∧
     calculateClarityScore (some "murky") = 20 ∧
     calculateClarityScore none = 70) ∧
    (∀ s : String, s ≠ "crystal_clear" → s ≠ "slightly_cloudy" → s ≠ "cloudy" →
      s ≠ "very_cloudy" → s ≠ "murky" → calculateClarityScore (some s) = 70) ∧
    (∀ es : List String, es ≠ [] →
      calculateEquipmentScore (some es) =
        100 * ((es.filter (fun st => st == "working")).length : ℚ) / (es.length : ℚ)) ∧
    (calculateEquipmentScore none = 70 ∧ calculateEquipmentScore (some []) = 70) ∧
    (∀ t : TestResults,
      calculateChemistryScore (some t) =
        max 0 (100 - (if t.pH < 7.2 ∨ t.pH > 7.6 then 20 else 0)
          - (if t.chlorine < 1.0 ∨ t.chlorine > 3.0 then 20 else 0)
          - (if t.alkalinity < 80 ∨ t.alkalinity > 120 then 15 else 0))) ∧
    (∀ c cl eq : ℚ,
      calculateOverallGrade c cl eq =
        (if (c + cl + eq) / 3 ≥ 97 then "A+"
         else if (c + cl + eq) / 3 ≥ 93 then "A"
         else if (c + cl + eq) / 3 ≥ 87 then "B+"
         else if (c + cl + eq) / 3 ≥ 83 then "B"
         else if (c + cl + eq) / 3 ≥ 77 then "C+"
         else if (c + cl + eq) / 3 ≥ 73 then "C"
         else if (c + cl + eq) / 3 ≥ 67 then "D"
         else "F")) ∧
    calculateOverallGrade 100 100 100 = "A+" ∧
    calculateOverallGrade 0 0 0 = "F" ∧
    ((40 : ℚ) + 75 + 80) / 3 = 65 ∧
    calculateOverallGrade 40 75 80 = "F" := by
  refine ⟨⟨rfl, rfl, rfl, rfl, rfl, rfl⟩, ?_, ?_, ⟨rfl, rfl⟩, ?_, ?_, ?_, ?_, by norm_num, ?_⟩
  · intro s h1 h2 h3 h4 h5
    simp only [calculateClarityScore]
    split <;> simp_all
  · intro es hne
    have hlen : ¬ es.length = 0 := by
      simpa [List.length_eq_zero] using hne
    simp only [calculateEquipmentScore, if_neg hlen]
    ring
  · intro t
    simp only [calculateChemistryScore]
    split_ifs <;> norm_num
  · intro c cl eq
    rfl
  · norm_num [calculateOverallGrade]
  · norm_num [calculateOverallGrade]
  · norm_num [calculateOverallGrade]

/-- Witness for `weekly_grade_spec` at concrete inputs: an unknown clarity
string scores 70, equipment 3-of-4 working scores 75, and a sample with
only pH out of band scores 80. -/
theorem weekly_grade_spec_witness :
    calculateClarityScore (some "sparkling") = 70 ∧
    calculateEquipmentScore (some ["working", "working", "working", "broken"]) = 75 ∧
    calculateChemistryScore (some { pH := 7.8, chlorine := 2, alkalinity := 100 }) = 80 := by
  obtain ⟨-, hunknown, hequip, -, hchem, -⟩ := weekly_grade_spec
  refine ⟨?_, ?_, ?_⟩
  · exact hunknown "sparkling" (by decide) (by decide) (by decide) (by decide) (by decide)
  · rw [hequip ["working", "working", "working", "broken"] (by decide)]
    rw [show List.filter (fun st => st == "working")
      ["working", "working", "working", "broken"] = ["working", "working", "working"]
      by decide]
    norm_num
  · rw [hchem { pH := 7.8, chlorine := 2, alkalinity := 100 }]
    norm_num

/-- Claim C9: when the weekly assessment's water-sample test results are
absent, the chemistry sub-score is 50 — not the 70 used as the missing-value
default for clarity and equipment, and not a failure — and this 50 flows
into the overall-grade average. -/
theorem missing_testResults_scores_fifty :
    (∀ a : AssessmentData,
      a.waterSample.bind (fun ws => ws.testResults) = none →
      (performWeeklyAIAnalysis a).chemistryScore = 50 ∧
      (performWeeklyAIAnalysis a).overallGrade =
        calculateOverallGrade 50
          (calculateClarityScore (a.visualInspection.bind (fun vi => vi.waterClarity)))
          (calculateEquipmentScore (a.visualInspection.bind (fun vi => vi.equipmentStatus)))) ∧
    calculateChemistryScore none = 50 ∧
    calculateClarityScore none = 70 ∧
    calculateEquipmentScore none = 70 := by
  refine ⟨?_, rfl, rfl, rfl⟩
  intro a h
  constructor
  · simp [performWeeklyAIAnalysis, h, calculateChemistryScore]
  · simp [performWeeklyAIAnalysis, h, calculateChemistryScore]

/-- Witness for `missing_testResults_scores_fifty` at the fully empty
assessment: chemistry 50, clarity 70, equipment 70, average 190/3 ≈ 63.3,
grade "F". -/
theorem missing_testResults_scores_fifty_witness :
    (performWeeklyAIAnalysis { waterSample := none, visualInspection := none }).chemistryScore
      = 50 ∧
    (performWeeklyAIAnalysis { waterSample := none, visualInspection := none }).overallGrade
      = "F" := by
  have h := missing_testResults_scores_fifty.1
    { waterSample := none, visualInspection := none } rfl
  refine ⟨h.1, ?_⟩
  rw [h.2]
  norm_num [calculateClarityScore, calculateEquipmentScore, calculateOverallGrade]

namespace VegasPool

/-- Trend classification results of `calculateTrend`. -/
inductive Trend where
  | insufficient_data
  | stable
  | increasing
  | decreasing
deriving Repr, DecidableEq

/-- `calculateTrend` (`src/unnamed/part_001` lines 478-494).  A reading
contributes `none` when the requested parameter is `undefined` on it,
mirroring `readings.map(r => r[parameter]).filter(v => v !== undefined)`;
`Math.ceil(values.length / 2)` is `(length + 1) / 2` in natural division.
When the older-half mean is 0 JavaScript computes `percentChange` as `NaN`
or signed infinity: `Math.abs(percentChange) < 5` is then false and
`percentChange > 0` holds exactly when the recent mean is positive, which
the explicit zero branch transcribes. -/
def calculateTrend (readings : List (Option ℚ)) : Trend :=
  if readings.length < 2 then .insufficient_data
  else
    let values := readings.filterMap id
    if values.length < 2 then .insufficient_data
    else
      let recent := values.take ((values.length + 1) / 2)
      let older := values.drop ((values.length + 1) / 2)
      let recentAvg := recent.sum / (recent.length : ℚ)
      let olderAvg := older.sum / (older.length : ℚ)
      if olderAvg = 0 then
        if recentAvg > 0 then .increasing else .decreasing
      else
        let percentChange := ((recentAvg - olderAvg) / olderAvg) * 100
        if |percentChange| < 5 then .stable
        else if percentChange > 0 then .increasing else .decreasing

/-- The usable data points of a readings sequence: the defined values, in
order. -/
def usableValues (readings : List (Option ℚ)) : List ℚ :=
  readings.filterMap id

/-- The `ceil(n/2)` most recent usable values. -/
def recentHalf (readings : List (Option ℚ)) : List ℚ :=
  (usableValues readings).take (((usableValues readings).length + 1) / 2)

/-- The remainder after removing the recent half. -/
def olderHalf (readings : List (Option ℚ)) : List ℚ :=
  (usableValues readings).drop (((usableValues readings).length + 1) / 2)

/-- Arithmetic mean of a list of rationals (0 for the empty list, since
division by 0 yields 0 in `ℚ`; both halves are nonempty whenever at least 2
usable values exist). -/
def listMean (l : List ℚ) : ℚ :=
  l.sum / (l.length : ℚ)

/-- The percent change computed by `calculateTrend` when the older-half mean
is nonzero. -/
def percentChange (readings : List (Option ℚ)) : ℚ :=
  ((listMean (recentHalf readings) - listMean (olderHalf readings))
    / listMean (olderHalf readings)) * 100

theorem calculateTrend_eq (readings : List (Option ℚ))
    (h2 : 2 ≤ (usableValues readings).length) :
    calculateTrend readings =
      if listMean (olderHalf readings) = 0 then
        (if 0 < listMean (recentHalf readings) then .increasing else .decreasing)
      else if |percentChange readings| < 5 then .stable
      else if percentChange readings > 0 then .increasing
      else .decreasing := by
  have hr : ¬ readings.length < 2 := by
    have hle := List.length_filterMap_le id readings
    simp only [usableValues] at h2
    omega
  have hv : ¬ (readings.filterMap id).length < 2 := by
    simp only [usableValues] at h2
    omega
  simp only [calculateTrend, if_neg hr, if_neg hv, usableValues, recentHalf,
    olderHalf, listMean, percentChange]

end VegasPool

/-- Claim C6: with fewer than 2 usable data points the trend is
`insufficient_data`; otherwise the usable values split into the `ceil(n/2)`
most recent versus the remainder, the percent change is
`(recent mean - older mean) / older mean * 100`, and the result is `stable`
when its absolute value is below 5, else `increasing` or `decreasing` by
sign (stated for a nonzero older-half mean, where the percent change is
defined); the readings [7.0, 7.1, 7.5, 7.6] most-recent-first give
`decreasing`. -/
theorem trend_classification_spec :
    (∀ readings : List (Option ℚ), (usableValues readings).length < 2 →
      calculateTrend readings = .insufficient_data) ∧
    (∀ readings : List (Option ℚ),
      2 ≤ (usableValues readings).length →
      listMean (olderHalf readings) ≠ 0 →
      calculateTrend readings =
        if |percentChange readings| < 5 then .stable
        else if percentChange readings > 0 then .increasing
        else .decreasing) ∧
    calculateTrend [some 7.0, some 7.1, some 7.5, some 7.6] = .decreasing := by
  refine ⟨?_, ?_, ?_⟩
  · intro readings h
    by_cases hr : readings.length < 2
    · simp [calculateTrend, hr]
    · simp only [usableValues] at h
      simp [calculateTrend, hr, h]
  · intro readings h2 hnz
    rw [calculateTrend_eq readings h2, if_neg hnz]
  · have h2 : 2 ≤ (usableValues [some 7.0, some 7.1, some 7.5, some 7.6]).length := by
      simp [usableValues]
    have ho : olderHalf [some 7.0, some 7.1, some 7.5, some 7.6] = [7.5, 7.6] := by
      simp [olderHalf, usableValues]
    have hrc : recentHalf [some 7.0, some 7.1, some 7.5, some 7.6] = [7.0, 7.1] := by
      simp [recentHalf, usableValues]
    have hpc : percentChange [some 7.0, some 7.1, some 7.5, some 7.6] = -1000 / 151 := by
      rw [percentChange, ho, hrc]
      norm_num [listMean, List.sum_cons, List.sum_nil]
    have holder : listMean (olderHalf [some 7.0, some 7.1, some 7.5, some 7.6]) ≠ 0 := by
      rw [ho]
      norm_num [listMean, List.sum_cons, List.sum_nil]
    rw [calculateTrend_eq _ h2, if_neg holder, hpc]
    rw [if_neg (by rw [abs_of_neg (by norm_num : (-1000 / 151 : ℚ) < 0)]; norm_num)]
    rw [if_neg (by norm_num)]

/-- Witness for `trend_classification_spec`: a single reading is
insufficient data, and the two-point list [10, 20] classifies via its
percent change (older mean 20 is nonzero). -/
theorem trend_classification_spec_witness :
    calculateTrend [some (1 : ℚ)] = .insufficient_data ∧
    calculateTrend [some (10 : ℚ), some 20] =
      (if |percentChange [some (10 : ℚ), some 20]| < 5 then Trend.stable
       else if percentChange [some (10 : ℚ), some 20] > 0 then Trend.increasing
       else Trend.decreasing) := by
  constructor
  · exact trend_classification_spec.1 [some 1] (by simp [usableValues])
  · refine trend_classification_spec.2.1 [some 10, some 20]
      (by simp [usableValues]) ?_
    have ho : olderHalf [some (10 : ℚ), some 20] = [20] := by
      simp [olderHalf, usableValues]
    rw [ho]
    norm_num [listMean, List.sum_cons, List.sum_nil]

/-- Claim C10: the trend computation divides by the older-half mean with no
zero guard; for every sequence with at least 2 usable values whose older
half averages to 0 (where JavaScript's percent change is `NaN` or signed
infinity, never a finite number), the result is still `increasing` or
`decreasing` — never `stable`, never `insufficient_data`, never an error —
and an all-zero sequence yields `decreasing`. -/
theorem trend_zero_older_mean_spec :
    (∀ readings : List (Option ℚ),
      2 ≤ (usableValues readings).length →
      listMean (olderHalf readings) = 0 →
      (calculateTrend readings = .increasing ∨ calculateTrend readings = .decreasing) ∧
      calculateTrend readings ≠ .stable ∧
      calculateTrend readings ≠ .insufficient_data) ∧
    calculateTrend [some (0 : ℚ), some 0, some 0] = .decreasing := by
  constructor
  · intro readings h2 h0
    rw [calculateTrend_eq readings h2, if_pos h0]
    by_cases hrc : 0 < listMean (recentHalf readings)
    · rw [if_pos hrc]
      exact ⟨Or.inl rfl, by decide, by decide⟩
    · rw [if_neg hrc]
      exact ⟨Or.inr rfl, by decide, by decide⟩
  · have h2 : 2 ≤ (usableValues [some (0 : ℚ), some 0, some 0]).length := by
      simp [usableValues]
    have ho : olderHalf [some (0 : ℚ), some 0, some 0] = [0] := by
      simp [olderHalf, usableValues]
    have hrc : recentHalf [some (0 : ℚ), some 0, some 0] = [0, 0] := by
      simp [recentHalf, usableValues]
    rw [calculateTrend_eq _ h2]
    rw [if_pos (by rw [ho]; norm_num [listMean, List.sum_cons, List.sum_nil])]
    rw [if_neg (by rw [hrc]; norm_num [listMean, List.sum_cons, List.sum_nil])]

/-- Witness for `trend_zero_older_mean_spec` at the list [5, 0]: the older
half is [0] with mean 0, and the function returns `increasing` or
`decreasing` (here `increasing`), never `stable`. -/
theorem trend_zero_older_mean_spec_witness :
    (calculateTrend [some (5 : ℚ), some 0] = .increasing ∨
     calculateTrend [some (5 : ℚ), some 0] = .decreasing) ∧
    calculateTrend [some (5 : ℚ), some 0] ≠ .stable ∧
    calculateTrend [some (5 : ℚ), some 0] ≠ .insufficient_data :=
  trend_zero_older_mean_spec.1 [some 5, some 0]
    (by simp [usableValues])
    (by
      have ho : olderHalf [some (5 : ℚ), some 0] = [0] := by
        simp [olderHalf, usableValues]
      rw [ho]
      norm_num [listMean, List.sum_cons, List.sum_nil])
